import Mathlib

/-!
Verification of the multiplayer WebSocket relay (`apps/api/src/websockets.ts`).

The development shallowly embeds the `WebsocketServer` class: its two `Map`
fields become association lists, JavaScript runtime values flowing through the
untyped message payloads become an inductive `JsValue`, `JSON.parse` is
modelled by an executable JSON parser, and each method becomes a pure function
from server state (plus an environment supplying the clock, the random source
and each socket's ready state) to a new state and the list of performed sends.
-/

set_option autoImplicit false

namespace Multiplayer

/-- A JavaScript runtime value as it can appear in a message payload:
`undefined`, `null`, booleans, numbers (modelled by `Rat`), strings, arrays
and plain objects (field lists in insertion order, later duplicates shadow
earlier ones on access, as in `JSON.parse`). -/
inductive JsValue where
  | undefined : JsValue
  | null : JsValue
  | bool (b : Bool) : JsValue
  | num (q : Rat) : JsValue
  | str (s : String) : JsValue
  | arr (elems : List JsValue) : JsValue
  | obj (fields : List (String × JsValue)) : JsValue
deriving Repr

/-- A JavaScript `Map` keyed by `κ`, modelled as an association list in
insertion order (JS `Map` preserves insertion order and keeps keys unique). -/
abbrev JsMap (κ α : Type) := List (κ × α)

variable {κ α : Type} [DecidableEq κ]

/-- `Map.get`: the value stored under `k`, if any (first occurrence). -/
def jsGet : JsMap κ α → κ → Option α
  | [], _ => none
  | (k', v) :: rest, k => if k' = k then some v else jsGet rest k

/-- `Map.set`: replace the value at an existing key in place, otherwise
append a new entry (JS `Map.set` keeps the original insertion position). -/
def jsSet : JsMap κ α → κ → α → JsMap κ α
  | [], k, v => [(k, v)]
  | (k', v') :: rest, k, v =>
    if k' = k then (k, v) :: rest else (k', v') :: jsSet rest k v

/-- `Map.delete`: remove the entry stored under `k`, if any. -/
def jsDelete : JsMap κ α → κ → JsMap κ α
  | [], _ => []
  | (k', v') :: rest, k => if k' = k then rest else (k', v') :: jsDelete rest k

/-- The keys of a map, in order. -/
def jsKeys (m : JsMap κ α) : List κ := m.map Prod.fst

/-! ### A model of `JSON.parse`

`handleMessage` first tries `JSON.parse` on the raw text and falls back to a
synthesized chat message when parsing throws, so the parser's accept/reject
behaviour is load-bearing. The model below implements the JSON grammar
(RFC 8259): values, objects, arrays, strings with escapes, numbers with
optional sign/fraction/exponent and no leading zeros, and the four JSON
whitespace characters. -/

/-- The four whitespace characters JSON allows between tokens. -/
def isJsonWs (c : Char) : Bool := c == ' ' || c == '\t' || c == '\n' || c == '\r'

/-- Drop leading JSON whitespace. -/
def skipWs (cs : List Char) : List Char := cs.dropWhile isJsonWs

/-- Expect exactly the characters `expected` at the head of the input,
returning the remainder on success. -/
def eatChars : List Char → List Char → Option (List Char)
  | [], cs => some cs
  | e :: es, c :: cs => if c = e then eatChars es cs else none
  | _ :: _, [] => none

/-- `eatChars` for the characters of a string literal. -/
def eatWord (w : String) (cs : List Char) : Option (List Char) :=
  eatChars w.data cs

/-- Decimal digit test. -/
def isDigit (c : Char) : Bool := '0' ≤ c && c ≤ '9'

/-- Value of a decimal digit character. -/
def digitVal (c : Char) : Nat := c.toNat - '0'.toNat

/-- Take the longest leading run of decimal digits, returning their values. -/
def takeDigits : List Char → List Nat × List Char
  | [] => ([], [])
  | c :: rest =>
    if isDigit c then
      let p := takeDigits rest
      (digitVal c :: p.1, p.2)
    else ([], c :: rest)

/-- Read a digit list as a base-10 natural number. -/
def digitsToNat (ds : List Nat) : Nat := ds.foldl (fun a d => a * 10 + d) 0

/-- Value of a hexadecimal digit character, if it is one (both letter cases
are accepted by `JSON.parse`). -/
def hexVal (c : Char) : Option Nat :=
  let n := c.toNat
  if 48 ≤ n ∧ n ≤ 57 then some (n - 48)
  else if 97 ≤ n ∧ n ≤ 102 then some (n - 87)
  else if 65 ≤ n ∧ n ≤ 70 then some (n - 55)
  else none

/-- The character denoted by a single-character JSON escape, if valid. -/
def escChar : Char → Option Char
  | '"' => some '"'
  | '\\' => some '\\'
  | '/' => some '/'
  | 'b' => some (Char.ofNat 8)
  | 'f' => some (Char.ofNat 12)
  | 'n' => some '\n'
  | 'r' => some '\r'
  | 't' => some '\t'
  | _ => none

/-- Parse the body of a JSON string after its opening quote: returns the
decoded characters and the input after the closing quote. Unterminated
strings, raw control characters and invalid escapes are rejected. -/
def parseStringBody : List Char → Option (List Char × List Char)
  | [] => none
  | c :: rest =>
    if c = '"' then some ([], rest)
    else if c = '\\' then
      match rest with
      | [] => none
      | e :: rest2 =>
        if e = 'u' then
          match rest2 with
          | h1 :: h2 :: h3 :: h4 :: rest3 =>
            match hexVal h1, hexVal h2, hexVal h3, hexVal h4 with
            | some a, some b, some c3, some d =>
              match parseStringBody rest3 with
              | some p => some (Char.ofNat (((a * 16 + b) * 16 + c3) * 16 + d) :: p.1, p.2)
              | none => none
            | _, _, _, _ => none
          | _ => none
        else
          match escChar e with
          | some ec =>
            match parseStringBody rest2 with
            | some p => some (ec :: p.1, p.2)
            | none => none
          | none => none
    else if c.toNat < 32 then none
    else
      match parseStringBody rest with
      | some p => some (c :: p.1, p.2)
      | none => none

/-- Parse a JSON number (`-?(0|[1-9][0-9]*)(\.[0-9]+)?([eE][+-]?[0-9]+)?`)
at the head of the input into a rational value. -/
def parseNumber (cs : List Char) : Option (Rat × List Char) :=
  let sp : Bool × List Char :=
    match cs with
    | '-' :: rest => (true, rest)
    | _ => (false, cs)
  match sp.2 with
  | [] => none
  | c :: rest =>
    if isDigit c then
      let ip : List Nat × List Char :=
        if c = '0' then ([0], rest) else takeDigits (c :: rest)
      let fracRes : Option (List Nat × List Char) :=
        match ip.2 with
        | '.' :: r2 =>
          match takeDigits r2 with
          | ([], _) => none
          | (ds, r3) => some (ds, r3)
        | _ => some ([], ip.2)
      match fracRes with
      | none => none
      | some (fracDs, rest2) =>
        let expRes : Option (Int × List Char) :=
          match rest2 with
          | e :: r3 =>
            if e = 'e' ∨ e = 'E' then
              let se : Int × List Char :=
                match r3 with
                | '+' :: r5 => (1, r5)
                | '-' :: r5 => (-1, r5)
                | _ => (1, r3)
              match takeDigits se.2 with
              | ([], _) => none
              | (ds, r5) => some (se.1 * digitsToNat ds, r5)
            else some (0, rest2)
          | [] => some (0, rest2)
        match expRes with
        | none => none
        | some (ex, rest3) =>
          let mant : Nat := digitsToNat ip.1 * 10 ^ fracDs.length + digitsToNat fracDs
          let e : Int := ex - fracDs.length
          let mag : Rat :=
            if 0 ≤ e then ((mant * 10 ^ e.toNat : Nat) : Rat)
            else mkRat mant (10 ^ (-e).toNat)
          some (if sp.1 then -mag else mag, rest3)
    else none

mutual

/-- Parse one JSON value at the head of the input (after optional
whitespace); `fuel` bounds the nesting depth. The three keyword literals are
recognized by `eatWord`, everything else by its first character. -/
def parseValue : Nat → List Char → Option (JsValue × List Char)
  | 0, _ => none
  | fuel + 1, cs =>
    match skipWs cs with
    | [] => none
    | c :: rest =>
      if c = 'n' then (eatWord "ull" rest).map (fun r => (.null, r))
      else if c = 't' then (eatWord "rue" rest).map (fun r => (.bool true, r))
      else if c = 'f' then (eatWord "alse" rest).map (fun r => (.bool false, r))
      else if c = '"' then
        (parseStringBody rest).map (fun p => (.str (String.mk p.1), p.2))
      else if c = '[' then
        match skipWs rest with
        | ']' :: r2 => some (.arr [], r2)
        | _ => parseElems fuel rest []
      else if c = '\x7b' then
        match skipWs rest with
        | '\x7d' :: r2 => some (.obj [], r2)
        | _ => parseMembers fuel rest []
      else
        (parseNumber (c :: rest)).map (fun p => (.num p.1, p.2))

/-- Parse the comma-separated elements of a non-empty JSON array. -/
def parseElems : Nat → List Char → List JsValue → Option (JsValue × List Char)
  | 0, _, _ => none
  | fuel + 1, cs, acc =>
    match parseValue fuel cs with
    | none => none
    | some (v, rest) =>
      match skipWs rest with
      | ',' :: r2 => parseElems fuel r2 (acc ++ [v])
      | ']' :: r2 => some (.arr (acc ++ [v]), r2)
      | _ => none

/-- Parse the comma-separated members of a non-empty JSON object. -/
def parseMembers : Nat → List Char → List (String × JsValue) →
    Option (JsValue × List Char)
  | 0, _, _ => none
  | fuel + 1, cs, acc =>
    match skipWs cs with
    | '"' :: rest =>
      match parseStringBody rest with
      | none => none
      | some (key, r2) =>
        match skipWs r2 with
        | ':' :: r3 =>
          match parseValue fuel r3 with
          | none => none
          | some (v, r4) =>
            match skipWs r4 with
            | ',' :: r5 => parseMembers fuel r5 (acc ++ [(String.mk key, v)])
            | '\x7d' :: r5 => some (.obj (acc ++ [(String.mk key, v)]), r5)
            | _ => none
        | _ => none
    | _ => none

end

/-- The model of `JSON.parse`: parse one value, allow trailing whitespace,
reject anything else left over; `none` models a thrown `SyntaxError`. -/
def jsonParse (s : String) : Option JsValue :=
  match parseValue (s.length + 8) s.data with
  | none => none
  | some (v, rest) =>
    match skipWs rest with
    | [] => some v
    | _ => none

/-! ### The `WebsocketServer` state and its methods -/

/-- JavaScript property read `v[k]`: reading from `undefined` or `null`
throws a `TypeError` (modelled by `Except.error`); reading a missing field of
an object, or any field of another value, yields `undefined`. On duplicate
object keys the last occurrence wins, as for JS objects built by
`JSON.parse`. -/
def jsGetFieldE : JsValue → String → Except Unit JsValue
  | .undefined, _ => .error ()
  | .null, _ => .error ()
  | .obj fields, k =>
    .ok ((fields.foldl (fun acc p => if p.1 = k then some p.2 else acc) none).getD .undefined)
  | _, _ => .ok .undefined

/-- The `Cursor` record of `websockets.ts`. `x` and `y` are whatever runtime
values the untyped payload carried (the source annotates them `number` but
never checks); `lastSeen` is the clock value at the update. -/
structure Cursor where
  color : String
  x : JsValue
  y : JsValue
  lastSeen : Nat
deriving Repr

/-- The `Client` record: the connection handle, the server-assigned user id
and the optional last cursor. -/
structure Client where
  ws : Nat
  userId : String
  cursor : Option Cursor
deriving Repr

/-- An outbound `Message` as constructed by the server before
`JSON.stringify`: type tag, sender id and payload. -/
structure OutMsg where
  type : String
  userId : Option String
  data : JsValue
deriving Repr

/-- The mutable fields of the `WebsocketServer` singleton. -/
structure ServerState where
  clients : JsMap Nat Client
  cursors : JsMap String Cursor
deriving Repr

/-- The ambient inputs of one method call: each socket's readiness
(`readyState === OPEN`), the value drawn from `Math.random` for a fresh
color (as a natural index source), and the current clock reading. -/
structure Env where
  openWs : Nat → Bool
  randIdx : Nat
  now : Nat

/-- The fixed palette of `generateRandomColor`. -/
def colors : List String :=
  ["#FF6B6B", "#4ECDC4", "#45B7D1", "#96CEB4", "#FFEAA7",
   "#DDA0DD", "#98D8C8", "#F7DC6F", "#BB8FCE", "#85C1E9"]

/-- `generateRandomColor`: `colors[Math.floor(Math.random() * colors.length)]`.
`Math.random()` lies in `[0, 1)`, so the index is in range; the model reduces
an arbitrary natural random source modulo the palette size. -/
def generateRandomColor (randIdx : Nat) : String :=
  colors.getD (randIdx % colors.length) ""

/-- A `Cursor` as it appears inside an outbound payload object. -/
def cursorToJs (c : Cursor) : JsValue :=
  .obj [("color", .str c.color), ("x", c.x), ("y", c.y), ("lastSeen", .num c.lastSeen)]

/-- `Object.fromEntries(this.cursors)`: the cursor table as a payload object. -/
def cursorsToJs (m : JsMap String Cursor) : JsValue :=
  .obj (m.map fun p => (p.1, cursorToJs p.2))

/-- Models `new Date().toISOString()` as an abstract injective rendering of
the clock value; its exact format is irrelevant to the verified properties. -/
def toISOString (now : Nat) : String := toString now

/-- `sendToClient`: deliver to one socket only when its
`readyState === OPEN`, otherwise a silent no-op. -/
def sendToClient (env : Env) (ws : Nat) (msg : OutMsg) : List (Nat × OutMsg) :=
  if env.openWs ws then [(ws, msg)] else []

/-- `broadcastToOthers`: iterate the client table in insertion order and send
to every connection except the sender (delivery still gated on readiness). -/
def broadcastToOthers (env : Env) (clients : JsMap Nat Client) (senderWs : Nat)
    (msg : OutMsg) : List (Nat × OutMsg) :=
  clients.filterMap fun p =>
    if p.1 = senderWs then none
    else if env.openWs p.1 then some (p.1, msg) else none

/-- `broadcastToAll`: send to every connection, sender included. -/
def broadcastToAll (env : Env) (clients : JsMap Nat Client) (msg : OutMsg) :
    List (Nat × OutMsg) :=
  clients.filterMap fun p =>
    if env.openWs p.1 then some (p.1, msg) else none

/-- The outbound message `handleCursorUpdate` broadcasts. -/
def cursorUpdateMsg (uid : String) (c : Cursor) : OutMsg :=
  { type := "cursor_update", userId := some uid,
    data := .obj [("userId", .str uid), ("cursor", cursorToJs c)] }

/-- The outbound message `handleChatMessage` broadcasts. -/
def chatBroadcastMsg (uid : String) (text : JsValue) (now : Nat) : OutMsg :=
  { type := "chat_message", userId := some uid,
    data := .obj [("userId", .str uid), ("message", text),
                  ("timestamp", .str (toISOString now))] }

/-- The outbound notice `removeClient` broadcasts. -/
def userLeftMsg (uid : String) : OutMsg :=
  { type := "user_left", userId := some uid,
    data := .obj [("userId", .str uid),
                  ("message", .str (uid ++ " left the session"))] }

/-- The welcome message `addClient` sends to the new socket. -/
def welcomeMsg (uid : String) (cursors : JsMap String Cursor) : OutMsg :=
  { type := "user_joined", userId := some uid,
    data := .obj [("userId", .str uid),
                  ("message", .str "Connected successfully!"),
                  ("cursors", cursorsToJs cursors)] }

/-- The join notice `addClient` broadcasts to the other sockets. -/
def joinNoticeMsg (uid : String) : OutMsg :=
  { type := "user_joined", userId := some uid,
    data := .obj [("userId", .str uid),
                  ("message", .str (uid ++ " joined the session"))] }

/-- The color expression of `handleCursorUpdate`:
`this.cursors.get(client.userId)?.color || this.generateRandomColor()` —
note `||` also replaces an empty (falsy) stored color. -/
def upsertColor (env : Env) (cursors : JsMap String Cursor) (uid : String) : String :=
  match jsGet cursors uid with
  | some c => if c.color = "" then generateRandomColor env.randIdx else c.color
  | none => generateRandomColor env.randIdx

/-- The cursor `handleCursorUpdate` builds for the sender from the raw
payload field values. -/
def upsertedCursor (env : Env) (s : ServerState) (uid : String)
    (xv yv : JsValue) : Cursor :=
  ⟨upsertColor env s.cursors uid, xv, yv, env.now⟩

/-- A client record with its `cursor` field overwritten
(`client.cursor = cursor` in the source). -/
def withCursor (client : Client) (c : Cursor) : Client :=
  { client with cursor := some c }

/-- `handleCursorUpdate`: build the new cursor (reading `data.x` / `data.y`
may throw), store it under the sender's id, mirror it on the client record,
and broadcast to all other connections. No numeric validation is performed. -/
def handleCursorUpdate (env : Env) (s : ServerState) (client : Client)
    (data : JsValue) : Except Unit (ServerState × List (Nat × OutMsg)) := do
  let x ← jsGetFieldE data "x"
  let y ← jsGetFieldE data "y"
  let cursor : Cursor :=
    { color := upsertColor env s.cursors client.userId
      x := x, y := y, lastSeen := env.now }
  let cursors2 := jsSet s.cursors client.userId cursor
  let clients2 := jsSet s.clients client.ws { client with cursor := some cursor }
  return ({ clients := clients2, cursors := cursors2 },
    broadcastToOthers env clients2 client.ws (cursorUpdateMsg client.userId cursor))

/-- `handleChatMessage`: broadcast the chat text (reading `data.message` may
throw) with the server-assigned sender id and a server timestamp to all
clients, sender included. -/
def handleChatMessage (env : Env) (s : ServerState) (client : Client)
    (data : JsValue) : Except Unit (ServerState × List (Nat × OutMsg)) := do
  let m ← jsGetFieldE data "message"
  return (s, broadcastToAll env s.clients (chatBroadcastMsg client.userId m env.now))

/-- The message `handleMessage` synthesizes when `JSON.parse` throws. -/
def fallbackChat (uid : String) (message : String) : JsValue :=
  .obj [("type", .str "chat_message"), ("userId", .str uid),
        ("data", .obj [("message", .str message)])]

/-- `handleMessage`: unknown sockets are ignored; the raw text is parsed
(falling back to a synthesized chat message); the switch dispatches on the
`type` property; any exception is caught by the outer `try` and discarded. -/
def handleMessage (env : Env) (s : ServerState) (ws : Nat) (message : String) :
    ServerState × List (Nat × OutMsg) :=
  match jsGet s.clients ws with
  | none => (s, [])
  | some client =>
    let parsedMessage : JsValue :=
      match jsonParse message with
      | some v => v
      | none => fallbackChat client.userId message
    let result : Except Unit (ServerState × List (Nat × OutMsg)) := do
      let t ← jsGetFieldE parsedMessage "type"
      match t with
      | .str "cursor_update" => do
        let d ← jsGetFieldE parsedMessage "data"
        handleCursorUpdate env s client d
      | .str "chat_message" => do
        let d ← jsGetFieldE parsedMessage "data"
        handleChatMessage env s client d
      | _ => return (s, [])
    match result with
    | .ok r => r
    | .error _ => (s, [])

/-- The id format of `addClient`:
`` `user_${Date.now()}_${Math.random().toString(36).substr(2, 9)}` ``.
The clock rendering and the random suffix are taken as abstract strings. -/
def mkUserId (nowStr rand : String) : String := "user_" ++ nowStr ++ "_" ++ rand

/-- `addClient`: generate an id (no uniqueness check), register the client,
send the welcome (with the current cursor snapshot) to the new socket, then
notify all others; returns the generated id. -/
def addClient (env : Env) (s : ServerState) (ws : Nat) (nowStr rand : String) :
    ServerState × String × List (Nat × OutMsg) :=
  let userId := mkUserId nowStr rand
  let client : Client := { ws := ws, userId := userId, cursor := none }
  let clients2 := jsSet s.clients ws client
  ({ s with clients := clients2 }, userId,
    sendToClient env ws (welcomeMsg userId s.cursors) ++
      broadcastToOthers env clients2 ws (joinNoticeMsg userId))

/-- `removeClient`: if the socket is registered, delete it and its user's
cursor and notify the remaining connections; otherwise do nothing. -/
def removeClient (env : Env) (s : ServerState) (ws : Nat) :
    ServerState × List (Nat × OutMsg) :=
  match jsGet s.clients ws with
  | none => (s, [])
  | some client =>
    let clients2 := jsDelete s.clients ws
    let cursors2 := jsDelete s.cursors client.userId
    ({ clients := clients2, cursors := cursors2 },
      broadcastToOthers env clients2 ws (userLeftMsg client.userId))

/-- `getCursors`: `return this.cursors` — the internal table itself, not a
copy. -/
def getCursors (s : ServerState) : JsMap String Cursor := s.cursors

/-- `getClientCount`: `this.clients.size`. -/
def getClientCount (s : ServerState) : Nat := s.clients.length

/-- A caller performing `server.getCursors().set(id, c)`. Because the source
returns the internal `Map` by reference (`return this.cursors`), the caller's
`set` lands in the store's own cursor table; the resulting server state
therefore carries the mutated table. -/
def mutateThroughSnapshot (s : ServerState) (id : String) (c : Cursor) : ServerState :=
  { s with cursors := jsSet (getCursors s) id c }

/-- The server-assigned ids of the currently registered connections. -/
def liveUserIds (s : ServerState) : List String :=
  s.clients.map fun p => p.2.userId

/-- States reachable through the JS `Map` API have distinct keys in both
tables. -/
def ServerState.WF (s : ServerState) : Prop :=
  (jsKeys s.clients).Nodup ∧ (jsKeys s.cursors).Nodup

/-! ### Shared concrete fixtures for witnesses and counterexamples -/

/-- An environment in which every socket is writable. -/
def openEnv : Env := ⟨fun _ => true, 3, 100⟩

/-- A registered connection on socket `0`. -/
def clientA : Client := ⟨0, "uA", none⟩

/-- A registered connection on socket `1`. -/
def clientB : Client := ⟨1, "uB", none⟩

/-- A server with two registered connections and no cursors. -/
def stateAB : ServerState := ⟨[(0, clientA), (1, clientB)], []⟩

/-- The freshly constructed server: no clients, no cursors. -/
def emptyState : ServerState := ⟨[], []⟩

/-- The inbound payload of the C1 counterexample: a `cursor_update` whose
`data` object is present but carries neither `x` nor `y`. -/
def rawInvalidCursor : String := "\x7b\"type\":\"cursor_update\",\"data\":\x7b\x7d\x7d"

/-- The payload of the C3 scenario: curly text without quoted keys. -/
def rawNoType : String := "\x7bx:10,y:20\x7d"

/-- The concrete inbound payloads of the C4 witness: both carry a spoofed
`userId` that the server must ignore. -/
def rawCursorSpoof : String :=
  "\x7b\"type\":\"cursor_update\",\"userId\":\"spoofed\",\"data\":\x7b\"x\":1,\"y\":2\x7d\x7d"

/-- The chat payload of the C4 witness. -/
def rawChatSpoof : String :=
  "\x7b\"type\":\"chat_message\",\"userId\":\"spoofed\",\"data\":\x7b\"message\":\"hi\"\x7d\x7d"

/-! ### Lemmas about the `Map` model -/

@[simp] theorem jsGet_nil (k : κ) : jsGet ([] : JsMap κ α) k = none := rfl

@[simp] theorem jsGet_cons (k' : κ) (v : α) (rest : JsMap κ α) (k : κ) :
    jsGet ((k', v) :: rest) k = if k' = k then some v else jsGet rest k := rfl

/-- Looking up the key just set returns the value just set. -/
theorem jsGet_jsSet_self (m : JsMap κ α) (k : κ) (v : α) :
    jsGet (jsSet m k v) k = some v := by
  induction m with
  | nil => simp [jsSet]
  | cons hd tl ih =>
    obtain ⟨k', v'⟩ := hd
    by_cases h : k' = k <;> simp [jsSet, h, ih]

/-- Setting one key does not change lookups of another key. -/
theorem jsGet_jsSet_ne (m : JsMap κ α) (k k' : κ) (v : α) (h : k ≠ k') :
    jsGet (jsSet m k v) k' = jsGet m k' := by
  induction m with
  | nil => simp [jsSet, h]
  | cons hd tl ih =>
    obtain ⟨k₀, v₀⟩ := hd
    by_cases h₀ : k₀ = k <;> simp [jsSet, h₀, h, ih]

/-- A key outside a map's key list looks up to nothing. -/
theorem jsGet_eq_none_of_not_mem (m : JsMap κ α) (k : κ) (h : k ∉ jsKeys m) :
    jsGet m k = none := by
  induction m with
  | nil => rfl
  | cons hd tl ih =>
    obtain ⟨k', v'⟩ := hd
    simp only [jsKeys, List.map_cons, List.mem_cons] at h
    push_neg at h
    simp only [jsGet_cons, if_neg (Ne.symm h.1)]
    exact ih h.2

/-- After deleting `k` from a map whose keys are distinct, `k` is absent. -/
theorem jsGet_jsDelete_self (m : JsMap κ α) (k : κ) (h : (jsKeys m).Nodup) :
    jsGet (jsDelete m k) k = none := by
  induction m with
  | nil => simp [jsDelete]
  | cons hd tl ih =>
    obtain ⟨k', v'⟩ := hd
    simp only [jsKeys, List.map_cons, List.nodup_cons] at h
    by_cases hk : k' = k
    · subst hk
      simp only [jsDelete, if_pos rfl]
      exact jsGet_eq_none_of_not_mem tl k' h.1
    · simp only [jsDelete, if_neg hk, jsGet_cons, if_neg hk]
      exact ih h.2

/-- Deleting one key does not change lookups of another key. -/
theorem jsGet_jsDelete_ne (m : JsMap κ α) (k k' : κ) (h : k ≠ k') :
    jsGet (jsDelete m k) k' = jsGet m k' := by
  induction m with
  | nil => simp [jsDelete]
  | cons hd tl ih =>
    obtain ⟨k₀, v₀⟩ := hd
    by_cases h₀ : k₀ = k
    · subst h₀
      simp [jsDelete, h]
    · simp [jsDelete, h₀, ih]



/-! ### Lemmas about lookup and broadcast -/

theorem mem_jsKeys_of_jsGet {κ α : Type} [DecidableEq κ] {m : JsMap κ α} {k : κ}
    {v : α} (h : jsGet m k = some v) : k ∈ jsKeys m := by
  induction m with
  | nil => simp [jsGet] at h
  | cons hd tl ih =>
    obtain ⟨k', v'⟩ := hd
    by_cases hk : k' = k
    · simp [jsKeys, hk]
    · simp only [jsGet_cons, if_neg hk] at h
      simpa [jsKeys] using Or.inr (ih h)

theorem exists_jsGet_of_mem {κ α : Type} [DecidableEq κ] {m : JsMap κ α} {k : κ}
    (h : k ∈ jsKeys m) : ∃ v, jsGet m k = some v := by
  induction m with
  | nil => simp [jsKeys] at h
  | cons hd tl ih =>
    obtain ⟨k', v'⟩ := hd
    by_cases hk : k' = k
    · exact ⟨v', by simp [hk]⟩
    · simp only [jsKeys, List.map_cons, List.mem_cons] at h
      rcases h with h | h
      · exact absurd h.symm hk
      · simpa [jsGet_cons, if_neg hk] using ih h

theorem mem_broadcastToOthers_iff (env : Env) (clients : JsMap Nat Client)
    (sender : Nat) (msg : OutMsg) (w : Nat) (m : OutMsg) :
    (w, m) ∈ broadcastToOthers env clients sender msg ↔
      w ∈ jsKeys clients ∧ w ≠ sender ∧ env.openWs w = true ∧ m = msg := by
  simp only [broadcastToOthers, List.mem_filterMap]
  constructor
  · rintro ⟨p, hp, hf⟩
    by_cases h1 : p.1 = sender
    · simp [h1] at hf
    · by_cases h2 : env.openWs p.1 = true
      · simp only [if_neg h1, if_pos h2, Option.some_inj, Prod.mk.injEq] at hf
        obtain ⟨rfl, rfl⟩ := hf
        exact ⟨List.mem_map.2 ⟨p, hp, rfl⟩, h1, h2, rfl⟩
      · simp [h1, h2] at hf
  · rintro ⟨hw, hne, hopen, rfl⟩
    obtain ⟨p, hp, rfl⟩ := List.mem_map.1 hw
    exact ⟨p, hp, by simp [hne, hopen]⟩

theorem mem_broadcastToAll_iff (env : Env) (clients : JsMap Nat Client)
    (msg : OutMsg) (w : Nat) (m : OutMsg) :
    (w, m) ∈ broadcastToAll env clients msg ↔
      w ∈ jsKeys clients ∧ env.openWs w = true ∧ m = msg := by
  simp only [broadcastToAll, List.mem_filterMap]
  constructor
  · rintro ⟨p, hp, hf⟩
    by_cases h2 : env.openWs p.1 = true
    · simp only [if_pos h2, Option.some_inj, Prod.mk.injEq] at hf
      obtain ⟨rfl, rfl⟩ := hf
      exact ⟨List.mem_map.2 ⟨p, hp, rfl⟩, h2, rfl⟩
    · simp [h2] at hf
  · rintro ⟨hw, hopen, rfl⟩
    obtain ⟨p, hp, rfl⟩ := List.mem_map.1 hw
    exact ⟨p, hp, by simp [hopen]⟩

/-- `broadcastToOthers` never targets the sender. -/
theorem not_mem_broadcastToOthers_self (env : Env) (clients : JsMap Nat Client)
    (sender : Nat) (msg : OutMsg) (m : OutMsg) :
    (sender, m) ∉ broadcastToOthers env clients sender msg := by
  intro h
  exact ((mem_broadcastToOthers_iff env clients sender msg sender m).1 h).2.1 rfl

/-- Reduction of `handleMessage` when `JSON.parse` throws: the raw text is
reinterpreted as a chat message and broadcast to all clients. -/
theorem handleMessage_parse_fail (env : Env) (s : ServerState) (ws : Nat)
    (message : String) (client : Client) (h : jsGet s.clients ws = some client)
    (hp : jsonParse message = none) :
    handleMessage env s ws message =
      (s, broadcastToAll env s.clients
        (chatBroadcastMsg client.userId (.str message) env.now)) := by
  simp [handleMessage, h, hp, fallbackChat, jsGetFieldE, handleChatMessage,
    Bind.bind, Except.bind, Pure.pure, Except.pure, List.foldl]

/-! ### The verified claims -/

/-- C10: if `handleMessage` is invoked for a WebSocket that has no registered
client, the call is a complete no-op — the membership table and the cursor
table are unchanged and no message is sent, whatever the payload. -/
theorem handleMessage_unregistered_noop (env : Env) (s : ServerState) (ws : Nat)
    (message : String) (h : jsGet s.clients ws = none) :
    handleMessage env s ws message = (s, []) := by
  simp [handleMessage, h]

/-- Witness for the C10 theorem at a concrete input. -/
theorem handleMessage_unregistered_noop_witness :
    jsGet emptyState.clients 5 = none ∧
      handleMessage openEnv emptyState 5 "hello" = (emptyState, []) :=
  ⟨rfl, handleMessage_unregistered_noop openEnv emptyState 5 "hello" rfl⟩

/-- C2 (counterexample): the claim "mutating the value returned to a caller
does not change the store's internal cursor table" fails at a concrete
input — inserting a cursor through the returned snapshot changes the table. -/
theorem getCursors_mutation_counterexample :
    (mutateThroughSnapshot emptyState "u" ⟨"#FF6B6B", .num 1, .num 2, 0⟩).cursors ≠
      emptyState.cursors := by
  simp [mutateThroughSnapshot, getCursors, emptyState, jsSet]

/-- C2 (amended): `getCursors` returns the internal cursor table itself, not
a copy, so a caller mutation through the snapshot is a mutation of the
store — an entry inserted through the returned map is found in the store. -/
theorem getCursors_mutation_amended (s : ServerState) (id : String) (c : Cursor) :
    jsGet (getCursors (mutateThroughSnapshot s id c)) id = some c := by
  simpa [getCursors, mutateThroughSnapshot] using
    jsGet_jsSet_self (getCursors s) id c

/-- C5: for a registered connection, any inbound text that `JSON.parse`
rejects is synthesized into a chat message whose text is the raw input,
attributed to the sender's server-assigned identity, and delivered to every
live (registered and open) connection. -/
theorem malformed_text_becomes_chat (env : Env) (s : ServerState) (ws : Nat)
    (message : String) (client : Client) (h : jsGet s.clients ws = some client)
    (hp : jsonParse message = none) :
    handleMessage env s ws message =
      (s, broadcastToAll env s.clients
        (chatBroadcastMsg client.userId (.str message) env.now)) ∧
    ∀ w, w ∈ jsKeys s.clients → env.openWs w = true →
      (w, chatBroadcastMsg client.userId (.str message) env.now) ∈
        (handleMessage env s ws message).2 := by
  have he := handleMessage_parse_fail env s ws message client h hp
  refine ⟨he, fun w hw hopen => ?_⟩
  rw [he]
  exact (mem_broadcastToAll_iff env s.clients _ w _).2 ⟨hw, hopen, rfl⟩

/-- Witness for the C5 theorem: `"hello"` is not JSON and is relayed as chat
to both registered connections, including the sender. -/
theorem malformed_text_becomes_chat_witness :
    jsonParse "hello" = none ∧
    handleMessage openEnv stateAB 0 "hello" =
      (stateAB, broadcastToAll openEnv stateAB.clients
        (chatBroadcastMsg clientA.userId (.str "hello") openEnv.now)) ∧
    (0, chatBroadcastMsg clientA.userId (.str "hello") openEnv.now) ∈
      (handleMessage openEnv stateAB 0 "hello").2 :=
  ⟨rfl,
   (malformed_text_becomes_chat openEnv stateAB 0 "hello" clientA rfl rfl).1,
   (malformed_text_becomes_chat openEnv stateAB 0 "hello" clientA rfl rfl).2
     0 (by simp [stateAB, jsKeys]) rfl⟩

/-- C9: the server never accepts a client-sent `user_joined` or `user_left`
message — any parsed inbound message whose `type` is neither
`cursor_update` nor `chat_message` (including the reserved server-authored
tags and arbitrary unknown tags) is dropped silently: no state change and no
message sent to any connection. -/
theorem inbound_reserved_types_dropped (env : Env) (s : ServerState) (ws : Nat)
    (message : String) (client : Client) (v t : JsValue)
    (h : jsGet s.clients ws = some client) (hp : jsonParse message = some v)
    (ht : jsGetFieldE v "type" = .ok t)
    (h1 : t ≠ .str "cursor_update") (h2 : t ≠ .str "chat_message") :
    handleMessage env s ws message = (s, []) := by
  simp only [handleMessage, h, hp, ht, Bind.bind, Except.bind]
  rcases t with _ | _ | b | q | st | el | fs
  case str => split <;> simp_all [Pure.pure, Except.pure]
  all_goals rfl

/-- Witness for the C9 theorem: a client-sent `user_joined` is dropped. -/
theorem inbound_reserved_types_dropped_witness :
    jsonParse "\x7b\"type\":\"user_joined\",\"data\":\x7b\"userId\":\"evil\"\x7d\x7d" =
      some (.obj [("type", .str "user_joined"),
                  ("data", .obj [("userId", .str "evil")])]) ∧
    handleMessage openEnv stateAB 0
      "\x7b\"type\":\"user_joined\",\"data\":\x7b\"userId\":\"evil\"\x7d\x7d" = (stateAB, []) :=
  ⟨rfl,
   inbound_reserved_types_dropped openEnv stateAB 0 _ clientA
     (.obj [("type", .str "user_joined"), ("data", .obj [("userId", .str "evil")])])
     (.str "user_joined") rfl rfl rfl (by simp) (by simp)⟩

/-- C6: for a registered connection, the first `removeClient` deletes both
the (handle, identity) pair and that identity's cursor — a subsequent
snapshot no longer contains the identity — and sends a `user_left` notice to
every remaining open connection; a second `removeClient` on the same handle
is a no-op that changes nothing and sends nothing. -/
theorem removeClient_removes_then_noop (env env' : Env) (s : ServerState)
    (ws : Nat) (client : Client) (h : jsGet s.clients ws = some client)
    (hwf : s.WF) :
    jsGet (removeClient env s ws).1.clients ws = none ∧
    jsGet (getCursors (removeClient env s ws).1) client.userId = none ∧
    (removeClient env s ws).2 =
      broadcastToOthers env (removeClient env s ws).1.clients ws
        (userLeftMsg client.userId) ∧
    (∀ w, w ∈ jsKeys (removeClient env s ws).1.clients → env.openWs w = true →
      (w, userLeftMsg client.userId) ∈ (removeClient env s ws).2) ∧
    removeClient env' (removeClient env s ws).1 ws = ((removeClient env s ws).1, []) := by
  have hr : removeClient env s ws =
      (⟨jsDelete s.clients ws, jsDelete s.cursors client.userId⟩,
        broadcastToOthers env (jsDelete s.clients ws) ws
          (userLeftMsg client.userId)) := by
    simp [removeClient, h]
  rw [hr]
  refine ⟨jsGet_jsDelete_self _ _ hwf.1, jsGet_jsDelete_self _ _ hwf.2,
    rfl, ?_, ?_⟩
  · intro w hw hopen
    have hne : w ≠ ws := by
      rintro rfl
      obtain ⟨val, hv⟩ := exists_jsGet_of_mem hw
      rw [jsGet_jsDelete_self _ _ hwf.1] at hv
      cases hv
    exact (mem_broadcastToOthers_iff env _ ws _ w _).2 ⟨hw, hne, hopen, rfl⟩
  · simp [removeClient, jsGet_jsDelete_self _ _ hwf.1]

/-- Witness for the C6 theorem on the two-connection fixture. -/
theorem removeClient_removes_then_noop_witness :
    jsGet stateAB.clients 0 = some clientA ∧ stateAB.WF ∧
    jsGet (removeClient openEnv stateAB 0).1.clients 0 = none ∧
    jsGet (getCursors (removeClient openEnv stateAB 0).1) clientA.userId = none ∧
    removeClient openEnv (removeClient openEnv stateAB 0).1 0 =
      ((removeClient openEnv stateAB 0).1, []) := by
  have hwf : stateAB.WF := ⟨by decide, by decide⟩
  have hmain := removeClient_removes_then_noop openEnv openEnv stateAB 0 clientA rfl hwf
  exact ⟨rfl, hwf, hmain.1, hmain.2.1, hmain.2.2.2.2⟩

/-- The palette pick of `generateRandomColor` always lands in the palette. -/
theorem generateRandomColor_mem (n : Nat) : generateRandomColor n ∈ colors := by
  have hlt : n % colors.length < colors.length :=
    Nat.mod_lt _ (by simp [colors])
  rw [generateRandomColor, List.getD_eq_getElem _ _ hlt]
  exact List.getElem_mem hlt

/-- No palette color is the empty string (so the `||` in the color expression
never replaces a stored palette color). -/
theorem colors_ne_empty : ∀ c ∈ colors, c ≠ "" := by decide

/-- C7: the first accepted cursor upsert for an identity assigns a color
drawn from the fixed palette, and a second upsert for the same identity
preserves that color while updating only position and timestamp. -/
theorem cursor_color_stable (env env' : Env) (s : ServerState)
    (client client' : Client) (d d' xv yv xv' yv' : JsValue)
    (hx : jsGetFieldE d "x" = .ok xv) (hy : jsGetFieldE d "y" = .ok yv)
    (hx' : jsGetFieldE d' "x" = .ok xv') (hy' : jsGetFieldE d' "y" = .ok yv')
    (hid : client'.userId = client.userId)
    (h0 : jsGet s.cursors client.userId = none) :
    ∃ s1 out1 s2 out2,
      handleCursorUpdate env s client d = .ok (s1, out1) ∧
      jsGet s1.cursors client.userId =
        some ⟨generateRandomColor env.randIdx, xv, yv, env.now⟩ ∧
      generateRandomColor env.randIdx ∈ colors ∧
      handleCursorUpdate env' s1 client' d' = .ok (s2, out2) ∧
      jsGet s2.cursors client.userId =
        some ⟨generateRandomColor env.randIdx, xv', yv', env'.now⟩ := by
  set c1 : Cursor := ⟨generateRandomColor env.randIdx, xv, yv, env.now⟩ with hc1
  have e1 : handleCursorUpdate env s client d =
      .ok (⟨jsSet s.clients client.ws { client with cursor := some c1 },
            jsSet s.cursors client.userId c1⟩,
        broadcastToOthers env
          (jsSet s.clients client.ws { client with cursor := some c1 })
          client.ws (cursorUpdateMsg client.userId c1)) := by
    simp [handleCursorUpdate, hx, hy, Bind.bind, Except.bind, Pure.pure,
      Except.pure, upsertColor, h0, hc1]
  have hget1 : jsGet (jsSet s.cursors client.userId c1) client.userId = some c1 :=
    jsGet_jsSet_self _ _ _
  have hcol : c1.color = generateRandomColor env.randIdx := rfl
  have hne : c1.color ≠ "" :=
    hcol ▸ colors_ne_empty _ (generateRandomColor_mem env.randIdx)
  set c2 : Cursor := ⟨generateRandomColor env.randIdx, xv', yv', env'.now⟩ with hc2
  set s1 : ServerState :=
    ⟨jsSet s.clients client.ws { client with cursor := some c1 },
      jsSet s.cursors client.userId c1⟩ with hs1
  set s2 : ServerState :=
    ⟨jsSet s1.clients client'.ws { client' with cursor := some c2 },
      jsSet s1.cursors client'.userId c2⟩ with hs2
  have e2 : handleCursorUpdate env' s1 client' d' =
      .ok (s2, broadcastToOthers env' s2.clients client'.ws
        (cursorUpdateMsg client'.userId c2)) := by
    simp [handleCursorUpdate, hx', hy', Bind.bind, Except.bind, Pure.pure,
      Except.pure, upsertColor, hid, hs1, hget1, hne, hc2, hs2]
  have hget2 : jsGet s2.cursors client.userId = some c2 := by
    rw [hs2]
    show jsGet (jsSet s1.cursors client'.userId c2) client.userId = some c2
    rw [hid]
    exact jsGet_jsSet_self _ _ _
  exact ⟨s1, _, s2, _, e1, hget1, generateRandomColor_mem env.randIdx, e2, hget2⟩

/-- Witness for the C7 theorem: two consecutive cursor updates for the same
identity; the second keeps the color of the first and updates position and
timestamp. -/
theorem cursor_color_stable_witness :
    jsGet stateAB.cursors clientA.userId = none ∧
    (∃ s1 out1 s2 out2,
      handleCursorUpdate openEnv stateAB clientA
        (.obj [("x", .num 1), ("y", .num 2)]) = .ok (s1, out1) ∧
      jsGet s1.cursors clientA.userId =
        some ⟨generateRandomColor openEnv.randIdx, .num 1, .num 2, openEnv.now⟩ ∧
      generateRandomColor openEnv.randIdx ∈ colors ∧
      handleCursorUpdate openEnv s1 clientA
        (.obj [("x", .num 3), ("y", .num 4)]) = .ok (s2, out2) ∧
      jsGet s2.cursors clientA.userId =
        some ⟨generateRandomColor openEnv.randIdx, .num 3, .num 4, openEnv.now⟩) :=
  ⟨rfl,
   cursor_color_stable openEnv openEnv stateAB clientA clientA
     (.obj [("x", .num 1), ("y", .num 2)]) (.obj [("x", .num 3), ("y", .num 4)])
     (.num 1) (.num 2) (.num 3) (.num 4) rfl rfl rfl rfl rfl rfl⟩

/-- C1 (counterexample): a `cursor_update` with missing (hence non-numeric)
`x` and `y` is not dropped — the sender's cursor entry is created in the
store and a message is broadcast (here to the one other connection). -/
theorem cursor_invalid_fields_counterexample :
    (jsGet (handleMessage openEnv stateAB 0 rawInvalidCursor).1.cursors
      clientA.userId).isSome = true ∧
    (handleMessage openEnv stateAB 0 rawInvalidCursor).2.length = 1 :=
  ⟨rfl, rfl⟩

/-- C1 (amended): an inbound `cursor_update` whose payload is readable is
processed even when `x` or `y` is missing or non-numeric — a cursor carrying
the raw field values (possibly `undefined`) is upserted for the sender and a
`cursor_update` is broadcast to every other connection; the message is
dropped with no state change and no send only when reading the payload's
fields itself throws (`data` absent or `null`). -/
theorem cursor_invalid_fields_processed (env : Env) (s : ServerState) (ws : Nat)
    (message : String) (client : Client) (v d : JsValue)
    (h : jsGet s.clients ws = some client) (hp : jsonParse message = some v)
    (ht : jsGetFieldE v "type" = .ok (.str "cursor_update"))
    (hd : jsGetFieldE v "data" = .ok d) :
    (∀ xv yv, jsGetFieldE d "x" = .ok xv → jsGetFieldE d "y" = .ok yv →
      handleMessage env s ws message =
        (⟨jsSet s.clients client.ws
            (withCursor client (upsertedCursor env s client.userId xv yv)),
          jsSet s.cursors client.userId
            (upsertedCursor env s client.userId xv yv)⟩,
         broadcastToOthers env
           (jsSet s.clients client.ws
             (withCursor client (upsertedCursor env s client.userId xv yv)))
           client.ws
           (cursorUpdateMsg client.userId
             (upsertedCursor env s client.userId xv yv)))) ∧
    (jsGetFieldE d "x" = .error () → handleMessage env s ws message = (s, [])) := by
  constructor
  · intro xv yv hx hy
    simp [handleMessage, h, hp, ht, hd, handleCursorUpdate, hx, hy,
      upsertedCursor, withCursor, Bind.bind, Except.bind, Pure.pure, Except.pure]
  · intro hx
    simp [handleMessage, h, hp, ht, hd, handleCursorUpdate, hx,
      Bind.bind, Except.bind, Pure.pure, Except.pure]

/-- Witness for the C1 amended theorem: the `data:{}` message is processed,
storing an `undefined`-position cursor and broadcasting it. -/
theorem cursor_invalid_fields_processed_witness :
    jsonParse rawInvalidCursor =
      some (.obj [("type", .str "cursor_update"), ("data", .obj [])]) ∧
    handleMessage openEnv stateAB 0 rawInvalidCursor =
      (⟨jsSet stateAB.clients clientA.ws
          (withCursor clientA (upsertedCursor openEnv stateAB clientA.userId .undefined .undefined)),
        jsSet stateAB.cursors clientA.userId
          (upsertedCursor openEnv stateAB clientA.userId .undefined .undefined)⟩,
       broadcastToOthers openEnv
         (jsSet stateAB.clients clientA.ws
           (withCursor clientA (upsertedCursor openEnv stateAB clientA.userId .undefined .undefined)))
         clientA.ws
         (cursorUpdateMsg clientA.userId
           (upsertedCursor openEnv stateAB clientA.userId .undefined .undefined))) :=
  ⟨rfl,
   (cursor_invalid_fields_processed openEnv stateAB 0 rawInvalidCursor clientA
     (.obj [("type", .str "cursor_update"), ("data", .obj [])]) (.obj [])
     rfl rfl rfl rfl).1 .undefined .undefined rfl rfl⟩

/-- C3 (counterexample): the claim calls `{x:10,y:20}` "valid JSON", but
`JSON.parse` rejects it — JSON requires quoted member names — so the
payload is not valid JSON with a missing `type` field. -/
theorem braces_payload_not_json_counterexample : jsonParse rawNoType = none := rfl

/-- C3 (amended): `{x:10,y:20}` is not valid JSON; because the structured
parse fails, `handleMessage` treats it as a chat message whose text equals
the raw payload string and broadcasts it as a `chat_message` to all live
connections, the sender included. -/
theorem braces_payload_treated_as_chat (env : Env) (s : ServerState) (ws : Nat)
    (client : Client) (h : jsGet s.clients ws = some client) :
    handleMessage env s ws rawNoType =
      (s, broadcastToAll env s.clients
        (chatBroadcastMsg client.userId (.str rawNoType) env.now)) ∧
    (env.openWs ws = true →
      (ws, chatBroadcastMsg client.userId (.str rawNoType) env.now) ∈
        (handleMessage env s ws rawNoType).2) := by
  have he := handleMessage_parse_fail env s ws rawNoType client h rfl
  refine ⟨he, fun hopen => ?_⟩
  rw [he]
  exact (mem_broadcastToAll_iff env s.clients _ ws _).2
    ⟨mem_jsKeys_of_jsGet h, hopen, rfl⟩

/-- Witness for the C3 amended theorem on the two-connection fixture. -/
theorem braces_payload_treated_as_chat_witness :
    jsGet stateAB.clients 0 = some clientA ∧
    handleMessage openEnv stateAB 0 rawNoType =
      (stateAB, broadcastToAll openEnv stateAB.clients
        (chatBroadcastMsg clientA.userId (.str rawNoType) openEnv.now)) ∧
    (0, chatBroadcastMsg clientA.userId (.str rawNoType) openEnv.now) ∈
      (handleMessage openEnv stateAB 0 rawNoType).2 :=
  ⟨rfl, (braces_payload_treated_as_chat openEnv stateAB 0 clientA rfl).1,
   (braces_payload_treated_as_chat openEnv stateAB 0 clientA rfl).2 rfl⟩

/-- `jsSet` never removes a key. -/
theorem mem_jsKeys_jsSet_of_mem {κ α : Type} [DecidableEq κ] {m : JsMap κ α}
    {w : κ} (k : κ) (v : α) (h : w ∈ jsKeys m) : w ∈ jsKeys (jsSet m k v) := by
  induction m with
  | nil => simp [jsKeys] at h
  | cons hd tl ih =>
    obtain ⟨k0, v0⟩ := hd
    simp only [jsKeys, List.map_cons, List.mem_cons] at h
    by_cases hk : k0 = k
    · subst hk
      rcases h with h | h
      · simp [jsSet, jsKeys, h]
      · simp [jsSet, jsKeys]
        exact Or.inr (by simpa [jsKeys] using h)
    · rcases h with h | h
      · simp [jsSet, hk, jsKeys, h]
      · simp only [jsSet, if_neg hk, jsKeys, List.map_cons, List.mem_cons]
        exact Or.inr (by simpa [jsKeys] using ih (by simpa [jsKeys] using h))

/-- C4: routing and identity stamping. A valid `cursor_update` from
connection A is sent to every other live connection and never to A; a
`chat_message` from A is sent to every live connection including A; in both
cases every delivered message carries A's server-assigned identity — the
inbound payloads (including any client-supplied `userId` field inside `v`
and `v'`) are quantified arbitrarily and cannot influence it. -/
theorem broadcast_targets_and_identity (env env' : Env) (s : ServerState)
    (ws : Nat) (client : Client) (raw raw' : String) (v v' d d' xv yv mv : JsValue)
    (h : jsGet s.clients ws = some client)
    (hp : jsonParse raw = some v)
    (ht : jsGetFieldE v "type" = .ok (.str "cursor_update"))
    (hd : jsGetFieldE v "data" = .ok d)
    (hx : jsGetFieldE d "x" = .ok xv) (hy : jsGetFieldE d "y" = .ok yv)
    (hp' : jsonParse raw' = some v')
    (ht' : jsGetFieldE v' "type" = .ok (.str "chat_message"))
    (hd' : jsGetFieldE v' "data" = .ok d')
    (hm : jsGetFieldE d' "message" = .ok mv) :
    (∀ m, (client.ws, m) ∉ (handleMessage env s ws raw).2) ∧
    (∀ w, w ∈ jsKeys s.clients → w ≠ client.ws → env.openWs w = true →
      (w, cursorUpdateMsg client.userId (upsertedCursor env s client.userId xv yv)) ∈
        (handleMessage env s ws raw).2) ∧
    (∀ w m, (w, m) ∈ (handleMessage env s ws raw).2 →
      m.userId = some client.userId) ∧
    (∀ w, w ∈ jsKeys s.clients → env'.openWs w = true →
      (w, chatBroadcastMsg client.userId mv env'.now) ∈
        (handleMessage env' s ws raw').2) ∧
    (env'.openWs ws = true →
      (ws, chatBroadcastMsg client.userId mv env'.now) ∈
        (handleMessage env' s ws raw').2) ∧
    (∀ w m, (w, m) ∈ (handleMessage env' s ws raw').2 →
      m.userId = some client.userId) := by
  have e1 : handleMessage env s ws raw =
      (⟨jsSet s.clients client.ws
          (withCursor client (upsertedCursor env s client.userId xv yv)),
        jsSet s.cursors client.userId (upsertedCursor env s client.userId xv yv)⟩,
       broadcastToOthers env
         (jsSet s.clients client.ws
           (withCursor client (upsertedCursor env s client.userId xv yv)))
         client.ws
         (cursorUpdateMsg client.userId (upsertedCursor env s client.userId xv yv))) := by
    simp [handleMessage, h, hp, ht, hd, handleCursorUpdate, hx, hy,
      upsertedCursor, withCursor, Bind.bind, Except.bind, Pure.pure, Except.pure]
  have e2 : handleMessage env' s ws raw' =
      (s, broadcastToAll env' s.clients
        (chatBroadcastMsg client.userId mv env'.now)) := by
    simp [handleMessage, h, hp', ht', hd', handleChatMessage, hm,
      Bind.bind, Except.bind, Pure.pure, Except.pure]
  refine ⟨?_, ?_, ?_, ?_, ?_, ?_⟩
  · intro m
    rw [e1]
    exact not_mem_broadcastToOthers_self env _ client.ws _ m
  · intro w hw hne hopen
    rw [e1]
    exact (mem_broadcastToOthers_iff env _ client.ws _ w _).2
      ⟨mem_jsKeys_jsSet_of_mem _ _ hw, hne, hopen, rfl⟩
  · intro w m hm2
    rw [e1] at hm2
    rw [((mem_broadcastToOthers_iff env _ client.ws _ w m).1 hm2).2.2.2]
    rfl
  · intro w hw hopen
    rw [e2]
    exact (mem_broadcastToAll_iff env' s.clients _ w _).2 ⟨hw, hopen, rfl⟩
  · intro hopen
    rw [e2]
    exact (mem_broadcastToAll_iff env' s.clients _ ws _).2
      ⟨mem_jsKeys_of_jsGet h, hopen, rfl⟩
  · intro w m hm2
    rw [e2] at hm2
    rw [((mem_broadcastToAll_iff env' s.clients _ w m).1 hm2).2.2]
    rfl

/-- Witness for the C4 theorem: on the two-connection fixture, the cursor
update reaches connection 1 but never the sender 0, the chat reaches the
sender 0, and delivered messages carry the server-assigned identity. -/
theorem broadcast_targets_and_identity_witness :
    (∀ m, (clientA.ws, m) ∉ (handleMessage openEnv stateAB 0 rawCursorSpoof).2) ∧
    (1, cursorUpdateMsg clientA.userId
        (upsertedCursor openEnv stateAB clientA.userId (.num 1) (.num 2))) ∈
      (handleMessage openEnv stateAB 0 rawCursorSpoof).2 ∧
    (0, chatBroadcastMsg clientA.userId (.str "hi") openEnv.now) ∈
      (handleMessage openEnv stateAB 0 rawChatSpoof).2 := by
  have hmain := broadcast_targets_and_identity openEnv openEnv stateAB 0 clientA
    rawCursorSpoof rawChatSpoof
    (.obj [("type", .str "cursor_update"), ("userId", .str "spoofed"),
           ("data", .obj [("x", .num 1), ("y", .num 2)])])
    (.obj [("type", .str "chat_message"), ("userId", .str "spoofed"),
           ("data", .obj [("message", .str "hi")])])
    (.obj [("x", .num 1), ("y", .num 2)])
    (.obj [("message", .str "hi")])
    (.num 1) (.num 2) (.str "hi")
    rfl rfl rfl rfl rfl rfl rfl rfl rfl rfl
  exact ⟨hmain.1,
    hmain.2.1 1 (by simp [stateAB, jsKeys]) (by simp [clientA]) rfl,
    hmain.2.2.2.2.1 rfl⟩

/-- C8 (counterexample): `addClient` performs no uniqueness check, so two
registrations that draw the same clock value and the same random suffix
produce the same identity — the second returned identity is already held by
the live connection registered first. -/
theorem identity_collision_counterexample :
    (addClient openEnv (addClient openEnv emptyState 0 "5" "abc").1 1 "5" "abc").2.1 ∈
      liveUserIds (addClient openEnv emptyState 0 "5" "abc").1 := by
  decide

/-- Splitting on the first `'_'` of an underscore-free-prefixed word is
unambiguous. -/
theorem append_underscore_inj (a1 b1 a2 b2 : List Char)
    (h1 : '_' ∉ a1) (h2 : '_' ∉ a2)
    (he : a1 ++ '_' :: b1 = a2 ++ '_' :: b2) : a1 = a2 ∧ b1 = b2 := by
  induction a1 generalizing a2 with
  | nil =>
    cases a2 with
    | nil => simpa using he
    | cons c t =>
      simp only [List.nil_append, List.cons_append, List.cons.injEq] at he
      exact absurd (he.1 ▸ List.mem_cons_self _ _) h2
  | cons c t ih =>
    cases a2 with
    | nil =>
      simp only [List.cons_append, List.nil_append, List.cons.injEq] at he
      exact absurd (he.1 ▸ List.mem_cons_self _ _) h1
    | cons c2 t2 =>
      simp only [List.cons_append, List.cons.injEq] at he
      have ht := ih t2 (fun hm => h1 (List.mem_cons_of_mem _ hm))
        (fun hm => h2 (List.mem_cons_of_mem _ hm)) he.2
      exact ⟨by rw [he.1, ht.1], ht.2⟩

/-- Appending strings concatenates their character data. -/
theorem string_data_append (a b : String) : (a ++ b).data = a.data ++ b.data := rfl

/-- The identity format of `addClient` is injective as long as neither the
clock rendering nor the random suffix contains an underscore (decimal digits
and base-36 `Math.random` suffixes never do). -/
theorem mkUserId_inj (n1 r1 n2 r2 : String)
    (hn1 : '_' ∉ n1.data) (hn2 : '_' ∉ n2.data)
    (he : mkUserId n1 r1 = mkUserId n2 r2) : n1 = n2 ∧ r1 = r2 := by
  have hdata : (mkUserId n1 r1).data = (mkUserId n2 r2).data :=
    congrArg String.data he
  have hd : "user_".data ++ (n1.data ++ '_' :: r1.data) =
      "user_".data ++ (n2.data ++ '_' :: r2.data) := by
    simpa [mkUserId, string_data_append, List.append_assoc] using hdata
  have hsplit := append_underscore_inj n1.data r1.data n2.data r2.data hn1 hn2
    (List.append_cancel_left hd)
  refine ⟨?_, ?_⟩
  · cases n1; cases n2; exact congrArg String.mk hsplit.1
  · cases r1; cases r2; exact congrArg String.mk hsplit.2

/-- C8 (amended): a `register` call returns an identity distinct from every
identity currently held by a live connection, provided the (clock, random
suffix) pair drawn at this call differs from the pair that generated each
live identity; the code itself performs no uniqueness check (see the
counterexample for a repeated pair). -/
theorem fresh_identity_unique (env : Env) (s : ServerState) (ws : Nat)
    (nowStr rand : String)
    (hn : '_' ∉ nowStr.data) (_hr : '_' ∉ rand.data)
    (hlive : ∀ p ∈ s.clients, ∃ n r, '_' ∉ n.data ∧ '_' ∉ r.data ∧
      p.2.userId = mkUserId n r ∧ (n ≠ nowStr ∨ r ≠ rand)) :
    (addClient env s ws nowStr rand).2.1 ∉ liveUserIds s := by
  intro hmem
  have hret : (addClient env s ws nowStr rand).2.1 = mkUserId nowStr rand := rfl
  rw [hret] at hmem
  obtain ⟨p, hp, hpid⟩ := List.mem_map.1 hmem
  obtain ⟨n, r, hn2, hr2, hid, hne⟩ := hlive p hp
  have := mkUserId_inj n r nowStr rand hn2 hn (hid ▸ hpid)
  rcases hne with hne | hne
  · exact hne this.1
  · exact hne this.2

/-- Witness for the C8 amended theorem: a second registration drawing a
different clock/suffix pair returns an identity not among the live ones. -/
theorem fresh_identity_unique_witness :
    '_' ∉ ("2" : String).data ∧ '_' ∉ ("bbb" : String).data ∧
    (addClient openEnv (addClient openEnv emptyState 0 "1" "aaa").1 1 "2" "bbb").2.1 ∉
      liveUserIds (addClient openEnv emptyState 0 "1" "aaa").1 := by
  refine ⟨by decide, by decide, ?_⟩
  refine fresh_identity_unique openEnv _ 1 "2" "bbb" (by decide) (by decide) ?_
  intro p hp
  have hp1 : p = (0, ⟨0, mkUserId "1" "aaa", none⟩) := by
    simpa [addClient, emptyState, jsSet] using hp
  exact ⟨"1", "aaa", by decide, by decide, by rw [hp1], Or.inl (by decide)⟩

end Multiplayer
